import Mathlib

/-!
# Verification of the WebHDFS client in `app/services/hadoop_service.py`

This file gives a shallow embedding of the `HadoopAPIClient` class and proves
properties of its operations.  The embedding models:

* parsed JSON bodies as the inductive `JVal` (what `httpx.Response.json()`
  yields when it succeeds);
* an HTTP response as `HttpResponse` (status code, headers, body text, the
  JSON parse of the body when it exists, and the raw byte content);
* the network as an oracle `net : HttpRequest → HttpResponse`: each client
  method is a pure function of the client state, the oracle and its
  arguments, returning its Python result (`Except PyError α`, where
  `PyError` covers the exceptions the Python code can raise) together with
  the ordered list of HTTP requests it issued.

Transport-level failures (connection refused, timeouts) are outside the
model: the oracle always produces a response.  Logging and `print` calls
have no observable effect and are dropped, except where they evaluate
`resp.json()` (which can raise).
-/

namespace BigdataServer

/-- Parsed JSON values, the shape `httpx.Response.json()` yields on success.
Object fields are kept in textual order; duplicate keys do not occur in the
inputs considered here. -/
inductive JVal where
  | jnull
  | jbool (b : Bool)
  | jnum (n : Int)
  | jstr (s : String)
  | jarr (elems : List JVal)
  | jobj (fields : List (String × JVal))
deriving Repr

/-- A single-quote character as a string (used by the Python `repr` rendering
of strings inside containers). -/
def sq : String := String.singleton (Char.ofNat 39)

mutual
/-- Python `repr()` of a parsed JSON value (`None`/`True`/`False` for the
scalar constants, bracketed comma-separated containers, single-quoted
strings; string escaping inside `repr` is not modelled — no theorem below
renders a container or a quoted string). -/
def pyRepr : JVal → String
  | .jnull => "None"
  | .jbool b => if b then "True" else "False"
  | .jnum n => toString n
  | .jstr s => sq ++ s ++ sq
  | .jarr es => "[" ++ pyReprList es ++ "]"
  | .jobj fs => "\x7b" ++ pyReprFields fs ++ "\x7d"

/-- Comma-separated `repr` of list elements. -/
def pyReprList : List JVal → String
  | [] => ""
  | [v] => pyRepr v
  | v :: w :: rest => pyRepr v ++ ", " ++ pyReprList (w :: rest)

/-- Comma-separated `repr` of dict entries. -/
def pyReprFields : List (String × JVal) → String
  | [] => ""
  | [(k, v)] => sq ++ k ++ sq ++ ": " ++ pyRepr v
  | (k, v) :: w :: rest => sq ++ k ++ sq ++ ": " ++ pyRepr v ++ ", " ++ pyReprFields (w :: rest)
end

/-- Python `str()` of a parsed JSON value: the string itself for strings,
`repr` otherwise.  This is what an f-string interpolation applies. -/
def pyToStr : JVal → String
  | .jstr s => s
  | v => pyRepr v

/-- Python `str(b).lower()` for a boolean, as built by `upload_file`,
`delete_path` (`"true"` / `"false"`). -/
def pyBoolStr (b : Bool) : String := if b then "true" else "false"

/-- An HTTP response as the client code observes it.  `json` is
`some v` when the body text parses as the JSON value `v` and `none` when
`resp.json()` raises; `content` is `resp.content` (raw bytes, modelled as a
list of byte values). -/
structure HttpResponse where
  status : Nat
  headers : List (String × String)
  text : String
  json : Option JVal
  content : List Nat
deriving Repr

/-- ASCII lower-casing of one character (header names are ASCII). -/
def lowerAscii (c : Char) : Char :=
  if 65 ≤ c.toNat && c.toNat ≤ 90 then Char.ofNat (c.toNat + 32) else c

/-- ASCII lower-casing of a string. -/
def strLower (s : String) : String := String.mk (s.data.map lowerAscii)

/-- Model of the case-insensitive header lookup `httpx.Headers.get`. -/
def headerGet (hs : List (String × String)) (name : String) : Option String :=
  (hs.find? (fun p => strLower p.1 == strLower name)).map (fun p => p.2)

/-- The predicate `Response.is_success`, the condition under which
`raise_for_status()` does NOT raise: a 2xx status code. -/
def isSuccess (status : Nat) : Bool := 200 ≤ status && status < 300

/-- The exceptions the embedded client code can raise:
`HDFSNotFoundError`, `HDFSConflictError`, a plain `Exception(msg)`, the raw
`httpx.HTTPStatusError` (carrying its response), and other Python runtime
errors (`KeyError`, `TypeError`, JSON decode errors) named by their class. -/
inductive PyError where
  | hdfsNotFound (msg : String)
  | hdfsConflict (msg : String)
  | generic (msg : String)
  | httpStatusError (resp : HttpResponse)
  | pyException (cls : String)
deriving Repr

/-- The exception class of a raised error — what a Python `except` clause
discriminates on. -/
inductive ExcKind where
  | notFoundK
  | conflictK
  | genericK
  | httpStatusK
  | otherK
deriving Repr, DecidableEq

/-- Map an error to its exception class. -/
def PyError.kind : PyError → ExcKind
  | .hdfsNotFound _ => .notFoundK
  | .hdfsConflict _ => .conflictK
  | .generic _ => .genericK
  | .httpStatusError _ => .httpStatusK
  | .pyException _ => .otherK

/-- The `try` body of `_handle_http_error` (hadoop_service.py:177-180):
`error.response.json().get("RemoteException", {}).get("message", "Unknown error")`,
with `error_msg = error.response.text` as the fallback when any step of that
expression raises (`.json()` failing to parse, or `.get` applied to a
non-dict, which raises `AttributeError`). -/
def extractErrorMsg (r : HttpResponse) : String :=
  match r.json with
  | none => r.text
  | some (.jobj fs) =>
    match fs.lookup "RemoteException" with
    | none => "Unknown error"
    | some (.jobj gs) =>
      match gs.lookup "message" with
      | none => "Unknown error"
      | some v => pyToStr v
    | some _ => r.text
  | some _ => r.text

/-- Model of `_handle_http_error` (hadoop_service.py:173-187): the error classifier.
404 raises `HDFSNotFoundError`, 409 raises `HDFSConflictError`, everything
else raises a plain `Exception`, each carrying the extracted message. -/
def handleHttpError (r : HttpResponse) : PyError :=
  let m := extractErrorMsg r
  if r.status = 404 then .hdfsNotFound ("Requested path not found: " ++ m)
  else if r.status = 409 then .hdfsConflict ("Path already exists: " ++ m)
  else .generic ("Hadoop API Error: " ++ m)

/-- The construction-time state of the client (`__init__`, hadoop_service.py:10-13):
`base_url = "http://{HADOOP_HOST}:{HADOOP_PORT}/webhdfs/v1"` and the identity
user (`settings.HADOOP_USER`, also the value stored in
`common_params["user.name"]`).  The shared `httpx.AsyncClient` is represented
by the network oracle. -/
structure ClientState where
  base_url : String
  user : String
deriving Repr, DecidableEq

/-- Model of `HadoopAPIClient.__init__` given the settings values. -/
def mkClient (host : String) (port : Nat) (user : String) : ClientState :=
  ⟨"http://" ++ host ++ ":" ++ toString port ++ "/webhdfs/v1", user⟩

/-- HTTP request method. -/
inductive Method where
  | get
  | put
  | delete
deriving Repr, DecidableEq

/-- An HTTP request as the client issues it.  `followRedirects = none` means
the argument was omitted (the default of the shared client applies);
`some b` means `follow_redirects=b` was passed explicitly.  `content` is the
raw byte payload when one is sent. -/
structure HttpRequest where
  method : Method
  url : String
  params : List (String × String)
  followRedirects : Option Bool
  content : Option (List Nat)
  headers : List (String × String)
deriving Repr, DecidableEq

/-- The network oracle: the (final) response each request receives. -/
def Net : Type := HttpRequest → HttpResponse

/-- Python subscript `d[k]` on a parsed JSON value: `KeyError` when the key
is missing from a dict, `TypeError` when the value is not a dict. -/
def jIndex : JVal → String → Except PyError JVal
  | .jobj fs, k =>
    match fs.lookup k with
    | some v => .ok v
    | none => .error (.pyException "KeyError")
  | _, _ => .error (.pyException "TypeError")

/-- The control request of `upload_file` (hadoop_service.py:58-76): a PUT on
`base_url + hdfs_path` with `follow_redirects=False` and the full parameter
dict in literal order. -/
def createRequest (st : ClientState) (hdfs_path : String) (overwrite : Bool)
    (blocksize replication : Nat) (permission : String) (buffersize : Nat)
    (noredirect : Bool) : HttpRequest :=
  ⟨.put, st.base_url ++ hdfs_path,
    [("op", "CREATE"),
     ("overwrite", pyBoolStr overwrite),
     ("blocksize", toString blocksize),
     ("replication", toString replication),
     ("permission", permission),
     ("buffersize", toString buffersize),
     ("noredirect", pyBoolStr noredirect),
     ("user.name", st.user)],
    some false, none, []⟩

/-- The data-phase request of `upload_file` (hadoop_service.py:86-90): a PUT
directly on the redirect URL carrying the raw bytes and a fixed binary
content type — no query parameters are repeated. -/
def payloadRequest (upload_url : String) (file_content : List Nat) : HttpRequest :=
  ⟨.put, upload_url, [], none, some file_content,
    [("Content-Type", "application/octet-stream")]⟩

/-- The request of `get_file_status` (hadoop_service.py:155-157). -/
def statusRequest (st : ClientState) (hdfs_path : String) : HttpRequest :=
  ⟨.get, st.base_url ++ hdfs_path,
    [("op", "GETFILESTATUS"), ("user.name", st.user)], none, none, []⟩

/-- The request of `download_file` (hadoop_service.py:104-106):
`follow_redirects=True` is passed explicitly. -/
def openRequest (st : ClientState) (hdfs_path : String) : HttpRequest :=
  ⟨.get, st.base_url ++ hdfs_path,
    [("user.name", st.user), ("op", "OPEN")], some true, none, []⟩

/-- The request of `delete_path` (hadoop_service.py:114-116). -/
def deleteRequest (st : ClientState) (hdfs_path : String) (recursive : Bool) :
    HttpRequest :=
  ⟨.delete, st.base_url ++ hdfs_path,
    [("user.name", st.user), ("op", "DELETE"),
     ("recursive", pyBoolStr recursive)], none, none, []⟩

/-- The request of `mkdir` (hadoop_service.py:123-128).  The permission
entry is added only when the argument is truthy (`if permission:`), so both
`None` and the empty string leave it out. -/
def mkdirRequest (st : ClientState) (hdfs_path : String)
    (permission : Option String) : HttpRequest :=
  ⟨.put, st.base_url ++ hdfs_path,
    [("user.name", st.user), ("op", "MKDIRS")] ++
      (match permission with
       | some p => if p = "" then [] else [("permission", p)]
       | none => []),
    none, none, []⟩

/-- The request of `rename_path` (hadoop_service.py:135-137). -/
def renameRequest (st : ClientState) (src_path dest_path : String) :
    HttpRequest :=
  ⟨.put, st.base_url ++ src_path,
    [("user.name", st.user), ("op", "RENAME"), ("destination", dest_path)],
    none, none, []⟩

/-- The request of `list_dir` (hadoop_service.py:144-146). -/
def listRequest (st : ClientState) (hdfs_path : String) : HttpRequest :=
  ⟨.get, st.base_url ++ hdfs_path,
    [("op", "LISTSTATUS"), ("user.name", st.user)], none, none, []⟩

/-- The request of `check_connection` (hadoop_service.py:18-20). -/
def homeRequest (st : ClientState) : HttpRequest :=
  ⟨.get, st.base_url,
    [("user.name", st.user), ("op", "GETHOMEDIRECTORY")], none, none, []⟩

/-- The dict returned by `_parse_file_status` (hadoop_service.py:163-171);
`ftype` holds the `"type"` key.  Field values are the JSON values found in
the response. -/
structure FileStatusDict where
  hdfs_path : String
  file_size : JVal
  block_size : JVal
  replication : JVal
  ftype : JVal
deriving Repr

/-- Model of `_parse_file_status`: build the status dict, indexing
`status_data["length"]`, `["blockSize"]`, `["replication"]`, `["type"]` in
the order the dict literal evaluates them. -/
def parse_file_status (status_data : JVal) (hdfs_path : String) :
    Except PyError FileStatusDict := do
  let len ← jIndex status_data "length"
  let bs ← jIndex status_data "blockSize"
  let rep ← jIndex status_data "replication"
  let t ← jIndex status_data "type"
  .ok ⟨hdfs_path, len, bs, rep, t⟩

/-- Model of `get_file_status` (hadoop_service.py:153-161): GET, then on success
parse `resp.json()["FileStatus"]`; on a non-2xx the raised
`httpx.HTTPStatusError` is routed through `_handle_http_error`.  A body
that fails to parse as JSON, or lacks the key, raises an uncaught Python
error. -/
def get_file_status (st : ClientState) (net : Net) (hdfs_path : String) :
    Except PyError FileStatusDict × List HttpRequest :=
  let req := statusRequest st hdfs_path
  let resp := net req
  if isSuccess resp.status then
    match resp.json with
    | none => (.error (.pyException "JSONDecodeError"), [req])
    | some j =>
      match jIndex j "FileStatus" with
      | .error e => (.error e, [req])
      | .ok fsObj => (parse_file_status fsObj hdfs_path, [req])
  else (.error (handleHttpError resp), [req])

/-- One element of the `list_dir` result: the dict holding the joined
path, the child type and the child length (hadoop_service.py:149). -/
structure ListEntry where
  path : String
  ftype : JVal
  size : JVal
deriving Repr

/-- Build one listing entry (hadoop_service.py:149).  The path is the
f-string interpolation of the queried path and the reported suffix of the
child, with an unconditional single `/` between them. -/
def listEntryOf (hdfs_path : String) (f : JVal) : Except PyError ListEntry := do
  let suf ← jIndex f "pathSuffix"
  let t ← jIndex f "type"
  let len ← jIndex f "length"
  .ok ⟨hdfs_path ++ "/" ++ pyToStr suf, t, len⟩

/-- Model of `list_dir` (hadoop_service.py:142-151): GET, then on success iterate
`resp.json()["FileStatuses"]["FileStatus"]` building one entry per child in
order; on a non-2xx the error is classified by `_handle_http_error`.
Python would iterate any iterable; a non-list JSON value there (never
produced by the backend) is collapsed to a `TypeError`. -/
def list_dir (st : ClientState) (net : Net) (hdfs_path : String) :
    Except PyError (List ListEntry) × List HttpRequest :=
  let req := listRequest st hdfs_path
  let resp := net req
  if isSuccess resp.status then
    match resp.json with
    | none => (.error (.pyException "JSONDecodeError"), [req])
    | some j =>
      match jIndex j "FileStatuses" with
      | .error e => (.error e, [req])
      | .ok stats =>
        match jIndex stats "FileStatus" with
        | .error e => (.error e, [req])
        | .ok (.jarr fl) => (fl.mapM (listEntryOf hdfs_path), [req])
        | .ok _ => (.error (.pyException "TypeError"), [req])
  else (.error (handleHttpError resp), [req])

/-- Model of `download_file` (hadoop_service.py:102-110): GET with redirects
followed; returns `resp.content` on success, classified error otherwise. -/
def download_file (st : ClientState) (net : Net) (hdfs_path : String) :
    Except PyError (List Nat) × List HttpRequest :=
  let req := openRequest st hdfs_path
  let resp := net req
  if isSuccess resp.status then (.ok resp.content, [req])
  else (.error (handleHttpError resp), [req])

/-- Model of `delete_path` (hadoop_service.py:112-119). -/
def delete_path (st : ClientState) (net : Net) (hdfs_path : String)
    (recursive : Bool) : Except PyError Unit × List HttpRequest :=
  let req := deleteRequest st hdfs_path recursive
  let resp := net req
  if isSuccess resp.status then (.ok (), [req])
  else (.error (handleHttpError resp), [req])

/-- Model of `mkdir` (hadoop_service.py:121-131). -/
def mkdir (st : ClientState) (net : Net) (hdfs_path : String)
    (permission : Option String) : Except PyError Unit × List HttpRequest :=
  let req := mkdirRequest st hdfs_path permission
  let resp := net req
  if isSuccess resp.status then (.ok (), [req])
  else (.error (handleHttpError resp), [req])

/-- Model of `rename_path` (hadoop_service.py:133-140). -/
def rename_path (st : ClientState) (net : Net) (src_path dest_path : String) :
    Except PyError Unit × List HttpRequest :=
  let req := renameRequest st src_path dest_path
  let resp := net req
  if isSuccess resp.status then (.ok (), [req])
  else (.error (handleHttpError resp), [req])

/-- Model of `check_connection` (hadoop_service.py:15-28): GET the home directory; a
non-2xx re-raises the raw `httpx.HTTPStatusError` after logging.  On
success the log line evaluates `resp.json()`, which raises when the body is
not JSON. -/
def check_connection (st : ClientState) (net : Net) :
    Except PyError Unit × List HttpRequest :=
  let req := homeRequest st
  let resp := net req
  if isSuccess resp.status then
    match resp.json with
    | none => (.error (.pyException "JSONDecodeError"), [req])
    | some _ => (.ok (), [req])
  else (.error (.httpStatusError resp), [req])

/-- Model of `upload_file` (hadoop_service.py:38-100).  Control PUT with
`follow_redirects=False`; on 307 take the `Location` header (a missing or
empty value raises the plain `Exception` at line 81), PUT the payload to it
and `raise_for_status`; on any other status `raise_for_status` the control
response; then confirm by `get_file_status`.  The `except
httpx.HTTPStatusError` handler re-raises the raw error unchanged. -/
def upload_file (st : ClientState) (net : Net) (hdfs_path : String)
    (file_content : List Nat) (overwrite : Bool) (blocksize replication : Nat)
    (permission : String) (buffersize : Nat) (noredirect : Bool) :
    Except PyError FileStatusDict × List HttpRequest :=
  let createReq := createRequest st hdfs_path overwrite blocksize replication
    permission buffersize noredirect
  let createResp := net createReq
  if createResp.status = 307 then
    match headerGet createResp.headers "Location" with
    | none => (.error (.generic "Hadoop 没有返回有效的上传 URL"), [createReq])
    | some u =>
      if u = "" then
        (.error (.generic "Hadoop 没有返回有效的上传 URL"), [createReq])
      else
        let upReq := payloadRequest u file_content
        let upResp := net upReq
        if isSuccess upResp.status then
          let confirm := get_file_status st net hdfs_path
          (confirm.1, createReq :: upReq :: confirm.2)
        else (.error (.httpStatusError upResp), [createReq, upReq])
  else
    if isSuccess createResp.status then
      let confirm := get_file_status st net hdfs_path
      (confirm.1, createReq :: confirm.2)
    else (.error (.httpStatusError createResp), [createReq])

/-- One invocation of a client method, with its arguments (the operations a
caller can run on one `HadoopAPIClient` instance). -/
inductive ClientOp where
  | uploadOp (p : String) (c : List Nat) (ow : Bool) (bs rep : Nat)
      (perm : String) (buf : Nat) (nr : Bool)
  | downloadOp (p : String)
  | deleteOp (p : String) (recursive : Bool)
  | mkdirOp (p : String) (perm : Option String)
  | renameOp (src dst : String)
  | listOp (p : String)
  | statusOp (p : String)
  | checkOp
deriving Repr

/-- The result an operation hands back to its caller. -/
inductive OpOutcome where
  | statusOut (r : Except PyError FileStatusDict)
  | bytesOut (r : Except PyError (List Nat))
  | unitOut (r : Except PyError Unit)
  | listOut (r : Except PyError (List ListEntry))
deriving Repr

/-- Run one operation against the client state.  The Python methods read
`self.base_url` / `self.common_params` / `settings.HADOOP_USER` but contain
no assignment to `self`, so each call hands the state back as it found
it. -/
def runOp (st : ClientState) (net : Net) : ClientOp → OpOutcome × ClientState
  | .uploadOp p c ow bs rep perm buf nr =>
    (.statusOut (upload_file st net p c ow bs rep perm buf nr).1, st)
  | .downloadOp p => (.bytesOut (download_file st net p).1, st)
  | .deleteOp p r => (.unitOut (delete_path st net p r).1, st)
  | .mkdirOp p perm => (.unitOut (mkdir st net p perm).1, st)
  | .renameOp src dst => (.unitOut (rename_path st net src dst).1, st)
  | .listOp p => (.listOut (list_dir st net p).1, st)
  | .statusOp p => (.statusOut (get_file_status st net p).1, st)
  | .checkOp => (.unitOut (check_connection st net).1, st)

/-- Run a sequence of operations, threading the client state. -/
def runOps (st : ClientState) (net : Net) : List ClientOp → ClientState
  | [] => st
  | op :: rest => runOps (runOp st net op).2 net rest

/-! ### Concrete fixtures used by witnesses and counterexamples -/

/-- A client built from the default settings
(`HADOOP_HOST="localhost"`, `HADOOP_PORT=9870`, `HADOOP_USER="root"`). -/
def st0 : ClientState := mkClient "localhost" 9870 "root"

/-- Payload bytes `b"hi"`. -/
def bytes0 : List Nat := [104, 105]

/-- Fallback response of the fixture networks (never reached by the runs
under study). -/
def respDefault : HttpResponse := ⟨500, [], "", none, []⟩

/-- The control request of the happy-path upload fixture. -/
def createReq0 : HttpRequest :=
  createRequest st0 "/t/a" true 134217728 3 "755" 4096 false

/-- Data-node URL returned by the 307 redirect of the fixture. -/
def dnUrl : String := "http://dn:9864/webhdfs/v1/t/a"

/-- The data-phase request of the happy-path upload fixture. -/
def payloadReq0 : HttpRequest := payloadRequest dnUrl bytes0

/-- The confirmation request of the happy-path upload fixture. -/
def statusReq0 : HttpRequest := statusRequest st0 "/t/a"

/-- The `GETFILESTATUS` body for the uploaded file. -/
def statusJson0 : JVal :=
  .jobj [("FileStatus",
    .jobj [("length", .jnum 2), ("blockSize", .jnum 134217728),
           ("replication", .jnum 3), ("type", .jstr "FILE")])]

/-- The descriptor parsed from `statusJson0`. -/
def fsd0 : FileStatusDict :=
  ⟨"/t/a", .jnum 2, .jnum 134217728, .jnum 3, .jstr "FILE"⟩

/-- Happy-path network: 307+Location on the control request, 201 on the
payload request, 200 with the status body on the confirmation request. -/
def net0 : Net := fun r =>
  if r = createReq0 then ⟨307, [("Location", dnUrl)], "", none, []⟩
  else if r = payloadReq0 then ⟨201, [], "", none, []⟩
  else if r = statusReq0 then
    ⟨200, [],
     "\x7b\"FileStatus\": \x7b\"length\": 2, \"blockSize\": 134217728, \"replication\": 3, \"type\": \"FILE\"\x7d\x7d",
     some statusJson0, []⟩
  else respDefault

/-- The control request of the broken-redirect upload fixture. -/
def createReq5 : HttpRequest :=
  createRequest st0 "/t/b" false 134217728 3 "755" 4096 false

/-- Network answering the control request with a 307 that carries no
`Location` header. -/
def net5 : Net := fun r =>
  if r = createReq5 then ⟨307, [("Content-Length", "0")], "", none, []⟩
  else respDefault

/-- A 404 response with a non-JSON body. -/
def resp404 : HttpResponse := ⟨404, [], "no such path", none, []⟩

/-- A 409 response with a non-JSON body. -/
def resp409 : HttpResponse := ⟨409, [], "already there", none, []⟩

/-- Network on which every path is absent: every request gets `resp404`. -/
def net404 : Net := fun _ => resp404

/-- A 401 response (authentication failure) with a plain-text body. -/
def resp401 : HttpResponse := ⟨401, [], "denied", none, []⟩

/-- A 500 response with the same plain-text body as `resp401`. -/
def resp500 : HttpResponse := ⟨500, [], "denied", none, []⟩

/-- A 500 response whose body does not parse as JSON. -/
def respRaw : HttpResponse := ⟨500, [], "oops", none, []⟩

/-- A 500 response whose body parses as JSON carrying the recognized
`RemoteException.message` field with the same text `"oops"`. -/
def respJson : HttpResponse :=
  ⟨500, [],
   "\x7b\"RemoteException\": \x7b\"message\": \"oops\"\x7d\x7d",
   some (.jobj [("RemoteException", .jobj [("message", .jstr "oops")])]), []⟩

/-- A 500 response whose body parses as JSON (`RemoteException` maps to a
string), hence lacks the `message` field. -/
def respStrRE : HttpResponse :=
  ⟨500, [], "\x7b\"RemoteException\": \"oops\"\x7d",
   some (.jobj [("RemoteException", .jstr "oops")]), []⟩

/-- A 500 response whose body parses as a JSON object with no
`RemoteException` key. -/
def respNoRE : HttpResponse :=
  ⟨500, [], "\x7b\"ok\": false\x7d", some (.jobj [("ok", .jbool false)]), []⟩

/-- The control request of the conflicting upload fixture
(`overwrite=false` on an existing path). -/
def createReqC : HttpRequest :=
  createRequest st0 "/t/dup" false 134217728 3 "755" 4096 false

/-- The 409 control response the backend sends for that upload. -/
def respConflict : HttpResponse :=
  ⟨409, [],
   "\x7b\"RemoteException\": \x7b\"message\": \"File already exists\"\x7d\x7d",
   some (.jobj [("RemoteException", .jobj [("message", .jstr "File already exists")])]),
   []⟩

/-- Network answering the conflicting control request with `respConflict`. -/
def netConflict : Net := fun r =>
  if r = createReqC then respConflict else respDefault

/-- The `FileStatus` array of the listing fixture: one child of suffix
`x.bin`. -/
def listArr8 : List JVal :=
  [.jobj [("pathSuffix", .jstr "x.bin"), ("type", .jstr "FILE"),
          ("length", .jnum 5)]]

/-- The `FileStatuses` object of the listing fixture. -/
def listStats8 : JVal := .jobj [("FileStatus", .jarr listArr8)]

/-- The `LISTSTATUS` body with one child of suffix `x.bin`. -/
def listJson8 : JVal := .jobj [("FileStatuses", listStats8)]

/-- Network answering a listing of the trailing-slash directory `/data/`
with `listJson8`. -/
def net8 : Net := fun r =>
  if r = listRequest st0 "/data/" then
    ⟨200, [],
     "\x7b\"FileStatuses\": \x7b\"FileStatus\": [\x7b\"pathSuffix\": \"x.bin\", \"type\": \"FILE\", \"length\": 5\x7d]\x7d\x7d",
     some listJson8, []⟩
  else respDefault

/-- Whether a character list contains two consecutive `/`. -/
def hasDoubleSlash : List Char → Bool
  | c :: d :: rest => (c = '/' && d = '/') || hasDoubleSlash (d :: rest)
  | _ => false

/-- Whether a string contains the substring `//`. -/
def strHasDoubleSlash (s : String) : Bool := hasDoubleSlash s.data

/-! ### Theorems -/

/-- Every single operation hands the client state back unchanged. -/
theorem runOp_state (st : ClientState) (net : Net) (op : ClientOp) :
    (runOp st net op).2 = st := by
  cases op <;> rfl

/-- C9: The client configuration (base URL, identity user) is set once at
construction and no sequence of client operations (upload, download,
delete, mkdir, rename, list, status, connection check) ever mutates it:
after any sequence of operations the base URL and the identity user equal
their construction-time values. -/
theorem client_config_immutable (st : ClientState) (net : Net)
    (ops : List ClientOp) :
    (runOps st net ops).base_url = st.base_url ∧
    (runOps st net ops).user = st.user := by
  induction ops generalizing st with
  | nil => exact ⟨rfl, rfl⟩
  | cons op rest ih =>
    have h : runOps st net (op :: rest) = runOps st net rest := by
      show runOps (runOp st net op).2 net rest = runOps st net rest
      rw [runOp_state]
    rw [h]
    exact ih st

/-- C2: a 404 response is classified as `HDFSNotFoundError` and a 409
response as `HDFSConflictError`, whatever the body looks like; hence
`download_file` and `get_file_status` on a path the backend reports absent
(404) raise `HDFSNotFoundError`. -/
theorem classifier_notfound_conflict (r : HttpResponse) (st : ClientState)
    (net : Net) (p : String) :
    (r.status = 404 →
      handleHttpError r = .hdfsNotFound ("Requested path not found: " ++ extractErrorMsg r)) ∧
    (r.status = 409 →
      handleHttpError r = .hdfsConflict ("Path already exists: " ++ extractErrorMsg r)) ∧
    ((net (openRequest st p)).status = 404 →
      (download_file st net p).1 =
        .error (.hdfsNotFound ("Requested path not found: " ++ extractErrorMsg (net (openRequest st p))))) ∧
    ((net (statusRequest st p)).status = 404 →
      (get_file_status st net p).1 =
        .error (.hdfsNotFound ("Requested path not found: " ++ extractErrorMsg (net (statusRequest st p))))) := by
  refine ⟨fun h4 => ?_, fun h9 => ?_, fun h4 => ?_, fun h4 => ?_⟩
  · simp [handleHttpError, h4]
  · simp [handleHttpError, h9]
  · simp [download_file, isSuccess, handleHttpError, h4]
  · simp [get_file_status, isSuccess, handleHttpError, h4]

/-- Witness for `classifier_notfound_conflict` at concrete 404/409 inputs
and on `net404`, where every path is absent. -/
theorem classifier_notfound_conflict_witness :
    (resp404.status = 404 ∧
      handleHttpError resp404 = .hdfsNotFound "Requested path not found: no such path") ∧
    (resp409.status = 409 ∧
      handleHttpError resp409 = .hdfsConflict "Path already exists: already there") ∧
    (download_file st0 net404 "/gone").1 =
      .error (.hdfsNotFound "Requested path not found: no such path") ∧
    (get_file_status st0 net404 "/gone").1 =
      .error (.hdfsNotFound "Requested path not found: no such path") := by
  have h := classifier_notfound_conflict resp404 st0 net404 "/gone"
  have h9 := classifier_notfound_conflict resp409 st0 net404 "/gone"
  exact ⟨⟨rfl, h.1 rfl⟩, ⟨rfl, h9.2.1 rfl⟩, h.2.2.1 rfl, h.2.2.2 rfl⟩

/-- C3 counterexample: a 401 response and a 500 response with the same body
are classified to the very same error — there is no distinct UNAUTHORIZED
kind a caller could tell apart from the generic one. -/
theorem unauthorized_kind_counterexample :
    handleHttpError resp401 = handleHttpError resp500 ∧
    handleHttpError resp401 = .generic "Hadoop API Error: denied" := by
  exact ⟨rfl, rfl⟩

/-- C3 amended: every response whose status is neither 404 nor 409 — in
particular 401 and 403 — is classified as the plain generic `Exception`
kind carrying the extracted message. -/
theorem classifier_unlisted_status_generic (r : HttpResponse)
    (h4 : r.status ≠ 404) (h9 : r.status ≠ 409) :
    handleHttpError r = .generic ("Hadoop API Error: " ++ extractErrorMsg r) ∧
    (handleHttpError r).kind = ExcKind.genericK := by
  constructor
  · simp [handleHttpError, h4, h9]
  · simp [handleHttpError, h4, h9, PyError.kind]

/-- Witness for `classifier_unlisted_status_generic` at the concrete 401
response (and a 403 one built on the spot). -/
theorem classifier_unlisted_status_generic_witness :
    ((401 : Nat) ≠ 404 ∧ (401 : Nat) ≠ 409 ∧
      handleHttpError resp401 = .generic "Hadoop API Error: denied") ∧
    ((403 : Nat) ≠ 404 ∧ (403 : Nat) ≠ 409 ∧
      handleHttpError ⟨403, [], "denied", none, []⟩ = .generic "Hadoop API Error: denied") := by
  refine ⟨⟨by decide, by decide, ?_⟩, ⟨by decide, by decide, ?_⟩⟩
  · exact (classifier_unlisted_status_generic resp401 (by decide) (by decide)).1
  · exact (classifier_unlisted_status_generic ⟨403, [], "denied", none, []⟩
      (by decide) (by decide)).1

/-- C4 counterexample: a 500 response whose body is not JSON and a 500
response whose body is JSON with a recognized `RemoteException.message`
are classified to the very same error — there is no distinct PROTOCOL kind
a caller could tell apart from the generic one. -/
theorem protocol_kind_counterexample :
    handleHttpError respRaw = handleHttpError respJson ∧
    handleHttpError respRaw = .generic "Hadoop API Error: oops" := by
  exact ⟨rfl, rfl⟩

/-- C4 amended: for a response whose status is neither 404 nor 409 and
whose body fails to parse as JSON, the classifier raises the same plain
generic `Exception` kind as in the JSON case, carrying the raw body text in
its message. -/
theorem classifier_unparseable_body (r : HttpResponse) (hj : r.json = none)
    (h4 : r.status ≠ 404) (h9 : r.status ≠ 409) :
    handleHttpError r = .generic ("Hadoop API Error: " ++ r.text) ∧
    (handleHttpError r).kind = ExcKind.genericK := by
  have hm : extractErrorMsg r = r.text := by simp [extractErrorMsg, hj]
  constructor
  · simp [handleHttpError, h4, h9, hm]
  · simp [handleHttpError, h4, h9, PyError.kind]

/-- Witness for `classifier_unparseable_body` at the concrete non-JSON 500
response. -/
theorem classifier_unparseable_body_witness :
    respRaw.json = none ∧ respRaw.status ≠ 404 ∧ respRaw.status ≠ 409 ∧
    handleHttpError respRaw = .generic "Hadoop API Error: oops" := by
  refine ⟨rfl, by decide, by decide, ?_⟩
  exact (classifier_unparseable_body respRaw rfl (by decide) (by decide)).1

/-- C10 counterexample: a response whose body parses as JSON in which
`RemoteException` maps to a string — so the recognized message field is
absent — is classified with the raw body text, not with the fallback
message `"Unknown error"` (the `.get` chain raises `AttributeError` and the
`except` branch substitutes `response.text`). -/
theorem unknown_error_fallback_counterexample :
    handleHttpError respStrRE =
      .generic ("Hadoop API Error: " ++ "\x7b\"RemoteException\": \"oops\"\x7d") ∧
    ("Hadoop API Error: " ++ "\x7b\"RemoteException\": \"oops\"\x7d") ≠
      ("Hadoop API Error: " ++ "Unknown error") := by
  exact ⟨rfl, by decide⟩

/-- C10 amended: when the body parses as a JSON object in which
`RemoteException` is absent, or maps to an object lacking `message`, the
classifier does not fail: it raises the kind determined by the status code
with the fallback message `"Unknown error"`. -/
theorem classifier_unknown_error_fallback (r : HttpResponse)
    (fs : List (String × JVal)) (hj : r.json = some (.jobj fs))
    (hre : fs.lookup "RemoteException" = none ∨
      ∃ gs, fs.lookup "RemoteException" = some (.jobj gs) ∧
        gs.lookup "message" = none) :
    extractErrorMsg r = "Unknown error" ∧
    (r.status = 404 →
      handleHttpError r = .hdfsNotFound "Requested path not found: Unknown error") ∧
    (r.status = 409 →
      handleHttpError r = .hdfsConflict "Path already exists: Unknown error") ∧
    (r.status ≠ 404 → r.status ≠ 409 →
      handleHttpError r = .generic "Hadoop API Error: Unknown error") := by
  have hm : extractErrorMsg r = "Unknown error" := by
    rcases hre with h | ⟨gs, hg, hmsg⟩
    · simp [extractErrorMsg, hj, h]
    · simp [extractErrorMsg, hj, hg, hmsg]
  refine ⟨hm, fun h4 => ?_, fun h9 => ?_, fun h4 h9 => ?_⟩
  · simp [handleHttpError, h4, hm]
  · simp [handleHttpError, h9, hm]
  · simp [handleHttpError, h4, h9, hm]

/-- Witness for `classifier_unknown_error_fallback` at the concrete 500
response whose JSON object has no `RemoteException` key. -/
theorem classifier_unknown_error_fallback_witness :
    respNoRE.json = some (.jobj [("ok", .jbool false)]) ∧
    ([("ok", JVal.jbool false)].lookup "RemoteException" = none) ∧
    extractErrorMsg respNoRE = "Unknown error" ∧
    handleHttpError respNoRE = .generic "Hadoop API Error: Unknown error" := by
  have h := classifier_unknown_error_fallback respNoRE [("ok", .jbool false)]
    rfl (Or.inl rfl)
  exact ⟨rfl, rfl, h.1, h.2.2.2 (by decide) (by decide)⟩

/-- C1: every upload invocation that returns (rather than raises) concludes
by issuing the status query for the target path and returns exactly the
descriptor that query parses: when the control response is 307 the payload
is first PUT to the redirect target, and for any other (necessarily 2xx)
control response the data transfer is skipped; in both cases the returned
value is the one `get_file_status` produced, never fabricated from the control or transfer
responses. -/
theorem upload_confirms_via_status_query (st : ClientState) (net : Net)
    (p : String) (c : List Nat) (ow : Bool) (bs rep : Nat) (perm : String)
    (buf : Nat) (nr : Bool) (d : FileStatusDict)
    (h : (upload_file st net p c ow bs rep perm buf nr).1 = Except.ok d) :
    (get_file_status st net p).1 = Except.ok d ∧
    ((net (createRequest st p ow bs rep perm buf nr)).status = 307 →
      ∃ u, headerGet (net (createRequest st p ow bs rep perm buf nr)).headers
          "Location" = some u ∧ u ≠ "" ∧
        (upload_file st net p c ow bs rep perm buf nr).2 =
          createRequest st p ow bs rep perm buf nr :: payloadRequest u c ::
            (get_file_status st net p).2) ∧
    ((net (createRequest st p ow bs rep perm buf nr)).status ≠ 307 →
      isSuccess (net (createRequest st p ow bs rep perm buf nr)).status = true ∧
      (upload_file st net p c ow bs rep perm buf nr).2 =
        createRequest st p ow bs rep perm buf nr ::
          (get_file_status st net p).2) := by
  by_cases h307 : (net (createRequest st p ow bs rep perm buf nr)).status = 307
  · cases hL : headerGet (net (createRequest st p ow bs rep perm buf nr)).headers
        "Location" with
    | none => exfalso; simp [upload_file, h307, hL] at h
    | some u =>
      by_cases hu : u = ""
      · exfalso; simp [upload_file, h307, hL, hu] at h
      · by_cases hup : isSuccess (net (payloadRequest u c)).status = true
        · have hres : (upload_file st net p c ow bs rep perm buf nr).1 =
              (get_file_status st net p).1 := by
            simp [upload_file, h307, hL, hu, hup]
          have htr : (upload_file st net p c ow bs rep perm buf nr).2 =
              createRequest st p ow bs rep perm buf nr :: payloadRequest u c ::
                (get_file_status st net p).2 := by
            simp [upload_file, h307, hL, hu, hup]
          exact ⟨hres ▸ h, fun _ => ⟨u, rfl, hu, htr⟩,
            fun hne => absurd h307 hne⟩
        · exfalso; simp [upload_file, h307, hL, hu, hup] at h
  · by_cases hcs : isSuccess (net (createRequest st p ow bs rep perm buf nr)).status = true
    · have hres : (upload_file st net p c ow bs rep perm buf nr).1 =
          (get_file_status st net p).1 := by
        simp [upload_file, h307, hcs]
      have htr : (upload_file st net p c ow bs rep perm buf nr).2 =
          createRequest st p ow bs rep perm buf nr ::
            (get_file_status st net p).2 := by
        simp [upload_file, h307, hcs]
      exact ⟨hres ▸ h, fun h' => absurd h' h307, fun _ => ⟨hcs, htr⟩⟩
    · exfalso; simp [upload_file, h307, hcs] at h

/-- Witness for `upload_confirms_via_status_query` on the happy-path
fixture: the upload returns `fsd0`, which is exactly the confirmation
parse of the confirmation query, and the trace is control request, payload request to the
redirect URL, status query. -/
theorem upload_confirms_via_status_query_witness :
    (upload_file st0 net0 "/t/a" bytes0 true 134217728 3 "755" 4096 false).1 =
      Except.ok fsd0 ∧
    (get_file_status st0 net0 "/t/a").1 = Except.ok fsd0 ∧
    (upload_file st0 net0 "/t/a" bytes0 true 134217728 3 "755" 4096 false).2 =
      createReq0 :: payloadReq0 :: (get_file_status st0 net0 "/t/a").2 := by
  have h := upload_confirms_via_status_query st0 net0 "/t/a" bytes0 true
    134217728 3 "755" 4096 false fsd0 rfl
  obtain ⟨u, hL, _, htr⟩ := h.2.1 rfl
  have hd : headerGet (net0 createReq0).headers "Location" = some dnUrl := rfl
  have hu : dnUrl = u := Option.some.inj (hd.symm.trans hL)
  refine ⟨rfl, h.1, ?_⟩
  rw [← hu] at htr
  exact htr

/-- C5: an upload whose control response is 307 without a (non-empty)
`Location` header raises the `Exception` of hadoop_service.py:81 — the
error the specification calls PROTOCOL — and never returns: the issued
trace is exactly the control request, so no payload is transferred, no
status query happens and no descriptor is produced. -/
theorem upload_redirect_without_location_raises (st : ClientState)
    (net : Net) (p : String) (c : List Nat) (ow : Bool) (bs rep : Nat)
    (perm : String) (buf : Nat) (nr : Bool)
    (h307 : (net (createRequest st p ow bs rep perm buf nr)).status = 307)
    (hL : headerGet (net (createRequest st p ow bs rep perm buf nr)).headers
        "Location" = none ∨
      headerGet (net (createRequest st p ow bs rep perm buf nr)).headers
        "Location" = some "") :
    upload_file st net p c ow bs rep perm buf nr =
      (Except.error (PyError.generic "Hadoop 没有返回有效的上传 URL"),
       [createRequest st p ow bs rep perm buf nr]) := by
  rcases hL with hL | hL <;> simp [upload_file, h307, hL]

/-- Witness for `upload_redirect_without_location_raises` on the
broken-redirect fixture `net5`. -/
theorem upload_redirect_without_location_raises_witness :
    (net5 createReq5).status = 307 ∧
    headerGet (net5 createReq5).headers "Location" = none ∧
    upload_file st0 net5 "/t/b" bytes0 false 134217728 3 "755" 4096 false =
      (Except.error (PyError.generic "Hadoop 没有返回有效的上传 URL"),
       [createReq5]) := by
  refine ⟨rfl, rfl, ?_⟩
  exact upload_redirect_without_location_raises st0 net5 "/t/b" bytes0 false
    134217728 3 "755" 4096 false rfl (Or.inl rfl)

/-- C6 (code bug): an upload with `overwrite=false` on an existing path —
control response 409 — propagates the raw `httpx.HTTPStatusError` to the
caller, not the classified `HDFSConflictError` the classifier would
produce for the very same response; the two are different exception
classes, so the gateway endpoint handler for `HDFSConflictError`
branch never fires for uploads. -/
theorem upload_conflict_raises_raw_http_error :
    (upload_file st0 netConflict "/t/dup" bytes0 false 134217728 3 "755"
      4096 false).1 = Except.error (PyError.httpStatusError respConflict) ∧
    (PyError.httpStatusError respConflict).kind = ExcKind.httpStatusK ∧
    handleHttpError respConflict =
      .hdfsConflict "Path already exists: File already exists" ∧
    (PyError.hdfsConflict "Path already exists: File already exists").kind =
      ExcKind.conflictK ∧
    ExcKind.httpStatusK ≠ ExcKind.conflictK := by
  exact ⟨rfl, rfl, rfl, rfl, by decide⟩

/-- C7: the control request of every upload carries exactly the write-create
operation, the lower-cased overwrite flag, the replication count, the block
size, the permission bits, the buffer size, the redirect-suppression flag
and the identity user, with automatic redirect-following disabled, and it
is the first request issued; the payload PUT to a non-empty redirect target
is the second request issued and carries only the raw bytes with the fixed
binary content type — no query parameters repeated. -/
theorem upload_request_shapes (st : ClientState) (net : Net) (p : String)
    (c : List Nat) (ow : Bool) (bs rep : Nat) (perm : String) (buf : Nat)
    (nr : Bool) :
    (createRequest st p ow bs rep perm buf nr).params =
      [("op", "CREATE"), ("overwrite", pyBoolStr ow),
       ("blocksize", toString bs), ("replication", toString rep),
       ("permission", perm), ("buffersize", toString buf),
       ("noredirect", pyBoolStr nr), ("user.name", st.user)] ∧
    (createRequest st p ow bs rep perm buf nr).followRedirects = some false ∧
    (∃ rest, (upload_file st net p c ow bs rep perm buf nr).2 =
      createRequest st p ow bs rep perm buf nr :: rest) ∧
    (∀ u, (net (createRequest st p ow bs rep perm buf nr)).status = 307 →
      headerGet (net (createRequest st p ow bs rep perm buf nr)).headers
        "Location" = some u → u ≠ "" →
      (∃ rest, (upload_file st net p c ow bs rep perm buf nr).2 =
        createRequest st p ow bs rep perm buf nr :: payloadRequest u c :: rest) ∧
      (payloadRequest u c).params = [] ∧
      (payloadRequest u c).content = some c ∧
      (payloadRequest u c).headers =
        [("Content-Type", "application/octet-stream")] ∧
      (payloadRequest u c).followRedirects = none) := by
  refine ⟨rfl, rfl, ?_, ?_⟩
  · by_cases h307 : (net (createRequest st p ow bs rep perm buf nr)).status = 307
    · cases hL : headerGet (net (createRequest st p ow bs rep perm buf nr)).headers
          "Location" with
      | none => exact ⟨[], by simp [upload_file, h307, hL]⟩
      | some u =>
        by_cases hu : u = ""
        · exact ⟨[], by simp [upload_file, h307, hL, hu]⟩
        · by_cases hup : isSuccess (net (payloadRequest u c)).status = true
          · exact ⟨payloadRequest u c :: (get_file_status st net p).2,
              by simp [upload_file, h307, hL, hu, hup]⟩
          · exact ⟨[payloadRequest u c],
              by simp [upload_file, h307, hL, hu, hup]⟩
    · by_cases hcs : isSuccess (net (createRequest st p ow bs rep perm buf nr)).status = true
      · exact ⟨(get_file_status st net p).2, by simp [upload_file, h307, hcs]⟩
      · exact ⟨[], by simp [upload_file, h307, hcs]⟩
  · intro u h307 hL hu
    refine ⟨?_, rfl, rfl, rfl, rfl⟩
    by_cases hup : isSuccess (net (payloadRequest u c)).status = true
    · exact ⟨(get_file_status st net p).2,
        by simp [upload_file, h307, hL, hu, hup]⟩
    · exact ⟨[], by simp [upload_file, h307, hL, hu, hup]⟩

/-- Witness for `upload_request_shapes` on the happy-path fixture. -/
theorem upload_request_shapes_witness :
    createReq0.params =
      [("op", "CREATE"), ("overwrite", "true"), ("blocksize", "134217728"),
       ("replication", "3"), ("permission", "755"), ("buffersize", "4096"),
       ("noredirect", "false"), ("user.name", "root")] ∧
    createReq0.followRedirects = some false ∧
    (∃ rest, (upload_file st0 net0 "/t/a" bytes0 true 134217728 3 "755"
      4096 false).2 = createReq0 :: payloadReq0 :: rest) ∧
    payloadReq0.params = [] ∧
    payloadReq0.content = some bytes0 ∧
    payloadReq0.headers = [("Content-Type", "application/octet-stream")] := by
  have h := upload_request_shapes st0 net0 "/t/a" bytes0 true 134217728 3
    "755" 4096 false
  have h2 := h.2.2.2 dnUrl rfl rfl (by decide)
  exact ⟨h.1, h.2.1, h2.1, h2.2.1, h2.2.2.1, h2.2.2.2.1⟩

/-- C8 counterexample: listing the directory `/data/` — queried with a
trailing separator — produces the child path `/data//x.bin`, which contains
`//`: the join is not normalized. -/
theorem list_dir_trailing_slash_counterexample :
    (list_dir st0 net8 "/data/").1 =
      Except.ok [⟨"/data//x.bin", .jstr "FILE", .jnum 5⟩] ∧
    strHasDoubleSlash "/data//x.bin" = true ∧
    "/data//x.bin" ≠ "/data/x.bin" := by
  exact ⟨rfl, rfl, by decide⟩

/-- C8 amended: every successful listing yields exactly one entry per
returned child, in backend order (an empty array yields the empty
list), and the path of each entry is the queried parent path joined to the
child suffix by one `/` inserted unconditionally — so a parent written
with a trailing `/` produces paths containing `//`. -/
theorem list_dir_entries_and_join (st : ClientState) (net : Net)
    (p : String) (j stats : JVal) (fl : List JVal)
    (hs : isSuccess (net (listRequest st p)).status = true)
    (hj : (net (listRequest st p)).json = some j)
    (h1 : jIndex j "FileStatuses" = Except.ok stats)
    (h2 : jIndex stats "FileStatus" = Except.ok (.jarr fl)) :
    (list_dir st net p).1 = fl.mapM (listEntryOf p) ∧
    (∀ (q suffix : String) (t len : JVal),
      listEntryOf q (.jobj [("pathSuffix", .jstr suffix), ("type", t),
        ("length", len)]) = Except.ok ⟨q ++ "/" ++ suffix, t, len⟩) := by
  constructor
  · simp [list_dir, hs, hj, h1, h2]
  · intro q suffix t len
    rfl

/-- Witness for `list_dir_entries_and_join` on the trailing-slash listing
fixture. -/
theorem list_dir_entries_and_join_witness :
    isSuccess (net8 (listRequest st0 "/data/")).status = true ∧
    (net8 (listRequest st0 "/data/")).json = some listJson8 ∧
    jIndex listJson8 "FileStatuses" = Except.ok listStats8 ∧
    jIndex listStats8 "FileStatus" = Except.ok (.jarr listArr8) ∧
    (list_dir st0 net8 "/data/").1 = listArr8.mapM (listEntryOf "/data/") ∧
    listEntryOf "/data/" (.jobj [("pathSuffix", .jstr "x.bin"),
      ("type", .jstr "FILE"), ("length", .jnum 5)]) =
      Except.ok ⟨"/data//x.bin", .jstr "FILE", .jnum 5⟩ := by
  have h := list_dir_entries_and_join st0 net8 "/data/" listJson8 listStats8
    listArr8 rfl rfl rfl rfl
  exact ⟨rfl, rfl, rfl, rfl, h.1, h.2 "/data/" "x.bin" (.jstr "FILE") (.jnum 5)⟩

end BigdataServer
